import Mathlib

/-!
Shallow embedding of `processar_arquivos.py` (face-blurring utility).

The source has two functions, `blur_faces_in_images` and
`blur_faces_in_videos`.  Both create the output directory if absent,
load a YOLO detection model (returning early on failure), and then
process each input path in order.  External collaborators — the YOLO
detector and `cv2.GaussianBlur` — are opaque: they are modelled as
function parameters (`detect` in the environment, `blur` in the
configuration; the fixed Gaussian kernel is folded into `blur`).
Frames are grids of pixels; pixel values are abstracted to `Nat`
(the channel axis of a numpy frame is irrelevant to every claim, so a
"pixel" stands for one pixel with all its channels).  Detector
confidences and box coordinates are rationals (the source converts the
coordinates with Python `int()`, i.e. truncation toward zero).
File-system and console effects are recorded as an event trace.
-/

namespace BlurFaces

/-- One pixel of a frame (all channels abstracted into one value). -/
abbrev Pixel := Nat

/-- A frame, `cv2` style: a list of rows, each row a list of pixels. -/
abbrev Grid := List (List Pixel)

/-- `frame.shape[0]` of a numpy frame: the number of rows. -/
def gridHeight (g : Grid) : Int := (g.length : Int)

/-- `frame.shape[1]` of a numpy frame: the number of columns
(rows are uniform in a real frame; we read the first row's length). -/
def gridWidth (g : Grid) : Int := ((g.headD []).length : Int)

/-- An axis-aligned bounding box in integer pixel coordinates, as built
from `map(int, box.xyxy[0])` in the source (lines 52 and 134). -/
structure Box where
  x1 : Int
  y1 : Int
  x2 : Int
  y2 : Int
deriving DecidableEq, Repr

/-- One raw detector output: a confidence `box.conf[0]` and the four
`box.xyxy[0]` coordinates, all real-valued (modelled as rationals). -/
structure Detection where
  conf : ℚ
  dx1 : ℚ
  dy1 : ℚ
  dx2 : ℚ
  dy2 : ℚ
deriving DecidableEq, Repr

/-- Python `int()` applied to a real number: truncation toward zero.
`Int.tdiv` is T-division, which truncates toward zero. -/
def intTrunc (q : ℚ) : Int := q.num.tdiv (q.den : Int)

/-- `x1, y1, x2, y2 = map(int, box.xyxy[0])` (source lines 52 and 134). -/
def toIntBox (d : Detection) : Box :=
  ⟨intTrunc d.dx1, intTrunc d.dy1, intTrunc d.dx2, intTrunc d.dy2⟩

/-- The coordinate clamp of source lines 54 and 138:
`x1, y1, x2, y2 = max(0, x1), max(0, y1), min(width, x2), min(height, y2)`. -/
def clampBox (b : Box) (width height : Int) : Box :=
  ⟨max 0 b.x1, max 0 b.y1, min width b.x2, min height b.y2⟩

/-- Resolve one Python/numpy slice endpoint on an axis of length `len`:
a negative index counts from the end, then the result is clamped to
`[0, len]`. -/
def resolveIdx (len : Nat) (i : Int) : Nat :=
  if i < 0 then (i + len).toNat else min i.toNat len

/-- `xs[a:b]` Python slicing on one axis. -/
def sliceList {α : Type} (xs : List α) (a b : Int) : List α :=
  (xs.take (resolveIdx xs.length b)).drop (resolveIdx xs.length a)

/-- `frame[y1:y2, x1:x2]` (read): the rectangular region of interest. -/
def readRegion (g : Grid) (y1 y2 x1 x2 : Int) : Grid :=
  (sliceList g y1 y2).map (fun row => sliceList row x1 x2)

/-- `face_roi.size` of a numpy region: rows times columns
(the positive channel factor is irrelevant to `size > 0`). -/
def roiSize (roi : Grid) : Nat := roi.length * (roi.headD []).length

/-- Write `vals` over the column range `[c0, c1)` of one row.
`cv2.GaussianBlur` preserves shape, so `vals` covers the range; out of
caution a missing value keeps the old pixel. -/
def writeRow (row : List Pixel) (c0 c1 : Nat) (vals : List Pixel) : List Pixel :=
  row.mapIdx (fun i v => if c0 ≤ i ∧ i < c1 then vals.getD (i - c0) v else v)

/-- `frame[y1:y2, x1:x2] = roi` (write): replace the region in place. -/
def writeRegion (g : Grid) (y1 y2 x1 x2 : Int) (roi : Grid) : Grid :=
  let r0 := resolveIdx g.length y1
  let r1 := resolveIdx g.length y2
  g.mapIdx (fun r row =>
    if r0 ≤ r ∧ r < r1 then
      writeRow row (resolveIdx row.length x1) (resolveIdx row.length x2)
        (roi.getD (r - r0) [])
    else row)

/-- Source lines 56-61 and 140-144: extract the region of a (clamped)
box; if its size is nonzero, replace it by its blurred version. -/
def blurBox (blur : Grid → Grid) (frame : Grid) (b : Box) : Grid :=
  let face_roi := readRegion frame b.y1 b.y2 b.x1 b.x2
  if 0 < roiSize face_roi then
    writeRegion frame b.y1 b.y2 b.x1 b.x2 (blur face_roi)
  else frame

/-- The image pipeline's per-frame work (source lines 45-61): for every
detector box, in order (`for r in results: for box in r.boxes`,
flattened here by `join`), if its confidence is strictly above the
threshold, convert to ints, clamp to `(width, height)`, and blur. -/
def imageProcessFrame (blur : Grid → Grid) (confidence_threshold : ℚ)
    (width height : Int) (results : List (List Detection)) (frame : Grid) : Grid :=
  results.flatten.foldl
    (fun f d =>
      if d.conf > confidence_threshold then
        blurBox blur f (clampBox (toIntBox d) width height)
      else f)
    frame

/-- The cache refill of source lines 130-135: keep exactly the boxes
strictly above the threshold, as raw (unclamped) integer coordinates. -/
def selectFaces (confidence_threshold : ℚ) (results : List (List Detection)) : List Box :=
  (results.flatten.filter (fun d => d.conf > confidence_threshold)).map toIntBox

/-- The video loop's per-video mutable state (source lines 116-117). -/
structure VideoState where
  frame_number : Nat
  last_known_faces : List Box
deriving DecidableEq, Repr

/-- One iteration of the video loop body (source lines 124-146), given
one decoded frame: increment the frame number, re-detect when the
1-indexed number is divisible by `detection_interval` (replacing the
cache), then blur a clamped copy of every cached box and emit the
frame. -/
def videoStep (blur : Grid → Grid) (confidence_threshold : ℚ)
    (detection_interval : Nat) (width height : Int)
    (detect : Grid → List (List Detection))
    (s : VideoState) (frame : Grid) : VideoState × Grid :=
  let n := s.frame_number + 1
  let faces :=
    if n % detection_interval = 0 then selectFaces confidence_threshold (detect frame)
    else s.last_known_faces
  let outFrame := faces.foldl (fun f b => blurBox blur f (clampBox b width height)) frame
  (⟨n, faces⟩, outFrame)

/-- The `while True: ret, frame = cap.read()` loop (source lines
119-146): run `step` over the capture's frames in order, writing one
output frame per input frame. -/
def runFrames (step : VideoState → Grid → VideoState × Grid) :
    VideoState → List Grid → List Grid
  | _, [] => []
  | s, f :: fs =>
    let p := step s f
    p.2 :: runFrames step p.1 fs

/-- `os.path.basename` over the last pathname component: scan the
characters, restarting after each separator. -/
def basenameChars (cs : List Char) : List Char :=
  cs.foldl (fun acc c => if c = '/' then [] else acc ++ [c]) []

/-- `os.path.basename(path)` (posix separator). -/
def basename (p : String) : String := ⟨basenameChars p.data⟩

/-- Is the first character a path separator? -/
def startsWithSep (s : String) : Bool :=
  match s.data with
  | [] => false
  | c :: _ => c = '/'

/-- Is the last character a path separator? -/
def endsWithSep (s : String) : Bool :=
  match s.data.getLast? with
  | none => false
  | some c => c = '/'

/-- `os.path.join(d, n)` (posix): an absolute second component wins;
otherwise a separator is inserted unless one is already there. -/
def joinPath (d n : String) : String :=
  if startsWithSep n then n
  else if d = "" ∨ endsWithSep d then d ++ n
  else d ++ "/" ++ n

/-- `os.path.join(output_dir, f"blurred_{name}")` where `name` is the
input's basename (source lines 34-35 and 99-100). -/
def outputPath (output_dir p : String) : String :=
  joinPath output_dir ("blurred_" ++ basename p)

/-- The tunable parameters of either pipeline.  `blur` stands for
`cv2.GaussianBlur` with the configured `blur_kernel` already applied. -/
structure Config where
  blur : Grid → Grid
  confidence_threshold : ℚ
  detection_interval : Nat

/-- A video file as `cv2.VideoCapture` exposes it: frame rate, the
integer width/height properties, and the decodable frames in order. -/
structure VideoFile where
  fps : ℚ
  width : Int
  height : Int
  frames : List Grid

/-- The world the script runs against: which paths exist, what decoding
them yields (`none` = `cv2.imread` returns `None` / the capture fails
to open), whether the YOLO weights load, and the detector itself. -/
structure Env where
  output_dir_exists : Bool
  model_loads : Bool
  path_exists : String → Bool
  image_of : String → Option Grid
  video_of : String → Option VideoFile
  detect : Grid → List (List Detection)

/-- Observable file-system/console effects of a run. -/
inductive Event where
  | mkdirOut (dir : String)
  | loadError
  | warnMissing (path : String)
  | readInput (path : String)
  | decodeFail (path : String)
  | openFail (path : String)
  | writeOutput (path : String) (frame : Grid)
  | writeVideo (path : String) (fps : Int) (width height : Int) (frames : List Grid)
deriving DecidableEq, Repr

/-- Does the event touch a file (read an input or produce an output)?
Progress prints and the mkdir of the output directory are not files. -/
def Event.isFileAccess : Event → Bool
  | .readInput _ => true
  | .decodeFail _ => true
  | .openFail _ => true
  | .writeOutput _ _ => true
  | .writeVideo _ _ _ _ _ => true
  | _ => false

/-- The per-image body of `blur_faces_in_images` (source lines 29-64):
skip missing paths with a warning, read the image, skip decode
failures, else detect, blur, and write `blurred_<basename>`. -/
def processImagePath (env : Env) (cfg : Config) (output_dir p : String) : List Event :=
  if env.path_exists p = false then [Event.warnMissing p]
  else
    match env.image_of p with
    | none => [Event.readInput p, Event.decodeFail p]
    | some frame =>
      [Event.readInput p,
       Event.writeOutput (outputPath output_dir p)
         (imageProcessFrame cfg.blur cfg.confidence_threshold
           (gridWidth frame) (gridHeight frame) (env.detect frame) frame)]

/-- `blur_faces_in_images` (source lines 6-66) as its trace of effects:
create the output directory if absent, load the model (abort the whole
call on failure), then process each image path in order. -/
def blur_faces_in_images (env : Env) (cfg : Config)
    (image_paths : List String) (output_dir : String) : List Event :=
  (if env.output_dir_exists then [] else [Event.mkdirOut output_dir]) ++
  (if env.model_loads then (image_paths.map (processImagePath env cfg output_dir)).flatten
   else [Event.loadError])

/-- The per-video body of `blur_faces_in_videos` (source lines 94-150):
skip missing paths, open the capture (skip on failure), then run the
frame loop from `frame_number = 0`, `last_known_faces = []` and write
the output stream with the capture's width/height and `int(fps)`. -/
def processVideoPath (env : Env) (cfg : Config) (output_dir p : String) : List Event :=
  if env.path_exists p = false then [Event.warnMissing p]
  else
    match env.video_of p with
    | none => [Event.readInput p, Event.openFail p]
    | some v =>
      [Event.readInput p,
       Event.writeVideo (outputPath output_dir p) (intTrunc v.fps) v.width v.height
         (runFrames
           (videoStep cfg.blur cfg.confidence_threshold cfg.detection_interval
             v.width v.height env.detect)
           ⟨0, []⟩ v.frames)]

/-- `blur_faces_in_videos` (source lines 69-152) as its trace of
effects: create the output directory if absent, load the model (abort
the whole call on failure), then process each video path in order. -/
def blur_faces_in_videos (env : Env) (cfg : Config)
    (video_paths : List String) (output_dir : String) : List Event :=
  (if env.output_dir_exists then [] else [Event.mkdirOut output_dir]) ++
  (if env.model_loads then (video_paths.map (processVideoPath env cfg output_dir)).flatten
   else [Event.loadError])

/-- The output-file paths written by a trace, in order. -/
def writtenPaths : List Event → List String
  | [] => []
  | .writeOutput p _ :: es => p :: writtenPaths es
  | _ :: es => writtenPaths es

/-- The content a path holds after a trace ran: the last write wins. -/
def finalContent (es : List Event) (path : String) : Option Grid :=
  es.foldl
    (fun acc e =>
      match e with
      | .writeOutput p g => if p = path then some g else acc
      | _ => acc)
    none

/-! Helper lemmas shared by several claim proofs. -/

/-- The image pipeline's inline conditional loop over detections equals
first filtering by strict confidence, converting to integer boxes, and
then folding the clamp-and-blur over that list (the video pipeline's
shape). -/
theorem foldl_blur_cond_eq (blur : Grid → Grid) (t : ℚ) (width height : Int)
    (l : List Detection) (frame : Grid) :
    l.foldl
        (fun f d =>
          if d.conf > t then blurBox blur f (clampBox (toIntBox d) width height) else f)
        frame
      = ((l.filter (fun d => d.conf > t)).map toIntBox).foldl
          (fun f b => blurBox blur f (clampBox b width height)) frame := by
  induction l generalizing frame with
  | nil => rfl
  | cons d ds ih =>
    by_cases h : d.conf > t
    · rw [List.foldl_cons, if_pos h,
        @List.filter_cons_of_pos _ (fun x => decide (x.conf > t)) d ds (decide_eq_true h),
        List.map_cons, List.foldl_cons]
      exact ih _
    · rw [List.foldl_cons, if_neg h,
        @List.filter_cons_of_neg _ (fun x => decide (x.conf > t)) d ds
          (by simp [decide_eq_false h])]
      exact ih _

/-- The frame loop writes exactly one output frame per decoded frame. -/
theorem runFrames_length (step : VideoState → Grid → VideoState × Grid)
    (s : VideoState) (fs : List Grid) :
    (runFrames step s fs).length = fs.length := by
  induction fs generalizing s with
  | nil => rfl
  | cons f fs ih => simp [runFrames, ih]

/-- The first `n` output frames of the loop are exactly the run of the
first `n` input frames: the stream is produced in order, with no
lookahead, reordering, dropping, or duplication. -/
theorem runFrames_take (step : VideoState → Grid → VideoState × Grid)
    (s : VideoState) (fs : List Grid) (n : Nat) :
    (runFrames step s fs).take n = runFrames step s (fs.take n) := by
  induction fs generalizing s n with
  | nil => simp [runFrames]
  | cons f fs ih =>
    cases n with
    | zero => rfl
    | succ m => simp [runFrames, ih]

/-! The claims. -/

/-- Claim C8: the clamp is idempotent: applying the clamp to a box
that is already the result of the clamp with the same frame dimensions
returns it unchanged. -/
theorem c8_clamp_idempotent (b : Box) (width height : Int) :
    clampBox (clampBox b width height) width height = clampBox b width height := by
  simp only [clampBox, Box.mk.injEq]
  refine ⟨?_, ?_, ?_, ?_⟩ <;> omega

/-- Claim C2 is false as stated: the clamp does not always yield
`x1 ≤ x2`.  At box `(1,0,0,1)` with a 10×10 frame the clamped box has
`x1 = 1 > 0 = x2`; and at box `(5,0,7,1)` with a 3×1 frame the input
satisfies `x1 ≤ x2` and `y1 ≤ y2` yet the clamped box has
`x1 = 5 > 3 = x2`, so the ordering is not even preserved. -/
theorem c2_counterexample :
    (¬ ((clampBox ⟨1, 0, 0, 1⟩ 10 10).x1 ≤ (clampBox ⟨1, 0, 0, 1⟩ 10 10).x2)) ∧
    ((Box.x1 ⟨5, 0, 7, 1⟩ ≤ Box.x2 ⟨5, 0, 7, 1⟩ ∧
        Box.y1 ⟨5, 0, 7, 1⟩ ≤ Box.y2 ⟨5, 0, 7, 1⟩) ∧
      ¬ ((clampBox ⟨5, 0, 7, 1⟩ 3 1).x1 ≤ (clampBox ⟨5, 0, 7, 1⟩ 3 1).x2)) := by
  decide

/-- Claim C2 (amended): the clamp always yields `0 ≤ x1`, `0 ≤ y1`,
`x2 ≤ W` and `y2 ≤ H`; and it yields the full chains
`0 ≤ x1 ≤ x2 ≤ W` and `0 ≤ y1 ≤ y2 ≤ H` whenever the frame dimensions
are nonnegative and the input box is ordered and meets the frame
(`x1 ≤ W`, `0 ≤ x2`, `y1 ≤ H`, `0 ≤ y2`). -/
theorem c2_clamp_bounds (b : Box) (width height : Int) :
    (0 ≤ (clampBox b width height).x1 ∧ 0 ≤ (clampBox b width height).y1 ∧
      (clampBox b width height).x2 ≤ width ∧ (clampBox b width height).y2 ≤ height) ∧
    (0 ≤ width → 0 ≤ height → b.x1 ≤ b.x2 → b.y1 ≤ b.y2 →
      b.x1 ≤ width → 0 ≤ b.x2 → b.y1 ≤ height → 0 ≤ b.y2 →
      0 ≤ (clampBox b width height).x1 ∧
        (clampBox b width height).x1 ≤ (clampBox b width height).x2 ∧
        (clampBox b width height).x2 ≤ width ∧
        0 ≤ (clampBox b width height).y1 ∧
        (clampBox b width height).y1 ≤ (clampBox b width height).y2 ∧
        (clampBox b width height).y2 ≤ height) := by
  simp only [clampBox]
  refine ⟨⟨?_, ?_, ?_, ?_⟩,
    fun h1 h2 h3 h4 h5 h6 h7 h8 => ⟨?_, ?_, ?_, ?_, ?_, ?_⟩⟩ <;> omega

/-- Witness for the amended C2 at box `(-2,-3,5,4)` in a 10×8 frame. -/
theorem c2_clamp_bounds_witness :
    0 ≤ (clampBox ⟨-2, -3, 5, 4⟩ 10 8).x1 ∧
      (clampBox ⟨-2, -3, 5, 4⟩ 10 8).x1 ≤ (clampBox ⟨-2, -3, 5, 4⟩ 10 8).x2 ∧
      (clampBox ⟨-2, -3, 5, 4⟩ 10 8).x2 ≤ 10 ∧
      0 ≤ (clampBox ⟨-2, -3, 5, 4⟩ 10 8).y1 ∧
      (clampBox ⟨-2, -3, 5, 4⟩ 10 8).y1 ≤ (clampBox ⟨-2, -3, 5, 4⟩ 10 8).y2 ∧
      (clampBox ⟨-2, -3, 5, 4⟩ 10 8).y2 ≤ 8 :=
  (c2_clamp_bounds ⟨-2, -3, 5, 4⟩ 10 8).2 (by decide) (by decide) (by decide)
    (by decide) (by decide) (by decide) (by decide) (by decide)

/-- Claim C3: with `detection_interval = 1`, the video loop's output on
any frame equals the image pipeline's detect-and-blur step run
independently on that frame (the capture's width/height properties
match the frame's dimensions, as they do for a real video), for every
prior cache state and frame number. -/
theorem c3_interval_one_matches_image (blur : Grid → Grid) (t : ℚ)
    (width height : Int) (detect : Grid → List (List Detection))
    (s : VideoState) (frame : Grid)
    (hw : width = gridWidth frame) (hh : height = gridHeight frame) :
    (videoStep blur t 1 width height detect s frame).2
      = imageProcessFrame blur t (gridWidth frame) (gridHeight frame)
          (detect frame) frame := by
  subst hw hh
  simp only [videoStep, Nat.mod_one, if_pos, imageProcessFrame, selectFaces]
  exact (foldl_blur_cond_eq blur t (gridWidth frame) (gridHeight frame)
    (detect frame).flatten frame).symm

/-- Witness for C3: a 2×2 frame, one confident detection, a stale
nonempty cache, identity blur. -/
theorem c3_witness :
    (videoStep (fun g => g) 0 1 2 2 (fun _ => [[⟨1, 0, 0, 1, 1⟩]])
        ⟨3, [⟨9, 9, 9, 9⟩]⟩ [[1, 2], [3, 4]]).2
      = imageProcessFrame (fun g => g) 0 (gridWidth [[1, 2], [3, 4]])
          (gridHeight [[1, 2], [3, 4]])
          ((fun (_ : Grid) => [[⟨1, 0, 0, 1, 1⟩]]) [[1, 2], [3, 4]]) [[1, 2], [3, 4]] :=
  c3_interval_one_matches_image (fun g => g) 0 2 2 (fun _ => [[⟨1, 0, 0, 1, 1⟩]])
    ⟨3, [⟨9, 9, 9, 9⟩]⟩ [[1, 2], [3, 4]] (by decide) (by decide)

/-- Claim C7: if no detection on a frame is strictly above the
threshold, the image pipeline leaves the frame unchanged
pixel-for-pixel. -/
theorem c7_no_faces_frame_unchanged (blur : Grid → Grid) (t : ℚ)
    (width height : Int) (results : List (List Detection)) (frame : Grid)
    (h : ∀ d ∈ results.flatten, ¬ d.conf > t) :
    imageProcessFrame blur t width height results frame = frame := by
  have hnil : results.flatten.filter (fun d => d.conf > t) = [] := by
    rw [List.filter_eq_nil_iff]
    simpa using h
  rw [imageProcessFrame, foldl_blur_cond_eq, hnil]
  rfl

/-- Witness for C7: one detection at confidence 0 against threshold 1;
the 1×2 frame comes back unchanged. -/
theorem c7_witness :
    imageProcessFrame (fun g => g) 1 2 1 [[⟨0, 0, 0, 1, 1⟩]] [[7, 8]] = [[7, 8]] :=
  c7_no_faces_frame_unchanged (fun g => g) 1 2 1 [[⟨0, 0, 0, 1, 1⟩]] [[7, 8]] (by decide)

/-- Claim C6: the confidence threshold is strict in both pipelines: a
detection whose confidence equals the threshold is not blurred by the
image pipeline and not cached by the video pipeline; a detection
strictly above the threshold is kept. -/
theorem c6_threshold_strict (blur : Grid → Grid) (t : ℚ) (width height : Int)
    (d : Detection) (frame : Grid) :
    (d.conf = t →
      imageProcessFrame blur t width height [[d]] frame = frame ∧
        selectFaces t [[d]] = []) ∧
    (d.conf > t → selectFaces t [[d]] = [toIntBox d]) := by
  have hflat : ([[d]] : List (List Detection)).flatten = [d] := rfl
  constructor
  · intro h
    have hlt : ¬ d.conf > t := by rw [h]; exact lt_irrefl t
    constructor
    · rw [imageProcessFrame, hflat, List.foldl_cons, if_neg hlt, List.foldl_nil]
    · rw [selectFaces, hflat,
        @List.filter_cons_of_neg _ (fun x => decide (x.conf > t)) d []
          (by simp [decide_eq_false hlt]),
        List.filter_nil, List.map_nil]
  · intro h
    rw [selectFaces, hflat,
      @List.filter_cons_of_pos _ (fun x => decide (x.conf > t)) d [] (decide_eq_true h),
      List.filter_nil, List.map_cons, List.map_nil]

/-- Witness for C6: at threshold 0, a confidence-0 detection is dropped
(frame unchanged, cache empty) while a confidence-1 detection is kept. -/
theorem c6_witness :
    (imageProcessFrame (fun g => g) 0 4 4 [[⟨0, 1, 1, 2, 2⟩]] [[5]] = [[5]] ∧
      selectFaces 0 [[⟨0, 1, 1, 2, 2⟩]] = []) ∧
    selectFaces 0 [[⟨1, 1, 1, 2, 2⟩]] = [toIntBox ⟨1, 1, 1, 2, 2⟩] :=
  ⟨(c6_threshold_strict (fun g => g) 0 4 4 ⟨0, 1, 1, 2, 2⟩ [[5]]).1 (by decide),
   (c6_threshold_strict (fun g => g) 0 4 4 ⟨1, 1, 1, 2, 2⟩ [[5]]).2 (by decide)⟩

/-- Claim C1: for a positive detection interval, on every frame whose
1-indexed number is divisible by the interval the detector runs and the
cache is replaced entirely by exactly the detections strictly above the
threshold (no merging with previous contents); on every other frame the
cache is reused unchanged. -/
theorem c1_cache_transition (blur : Grid → Grid) (t : ℚ)
    (detection_interval : Nat) (width height : Int)
    (detect : Grid → List (List Detection)) (s : VideoState) (frame : Grid)
    (hpos : 0 < detection_interval) :
    (detection_interval ∣ (s.frame_number + 1) →
      (videoStep blur t detection_interval width height detect s frame).1.last_known_faces
        = selectFaces t (detect frame)) ∧
    (¬ detection_interval ∣ (s.frame_number + 1) →
      (videoStep blur t detection_interval width height detect s frame).1.last_known_faces
        = s.last_known_faces) := by
  constructor
  · intro hd
    have hm : (s.frame_number + 1) % detection_interval = 0 :=
      Nat.dvd_iff_mod_eq_zero.mp hd
    simp [videoStep, hm]
  · intro hd
    have hm : ¬ (s.frame_number + 1) % detection_interval = 0 := fun hz =>
      hd (Nat.dvd_iff_mod_eq_zero.mpr hz)
    simp [videoStep, hm]

/-- Witness for C1: interval 2; on 1-indexed frame 2 a stale cache is
overwritten by the fresh detection, on 1-indexed frame 1 it is kept. -/
theorem c1_witness :
    ((videoStep (fun g => g) 0 2 3 3 (fun _ => [[⟨1, 0, 0, 1, 1⟩]])
          ⟨1, [⟨9, 9, 9, 9⟩]⟩ [[1]]).1.last_known_faces
        = selectFaces 0 ((fun (_ : Grid) => [[⟨1, 0, 0, 1, 1⟩]]) [[1]])) ∧
    ((videoStep (fun g => g) 0 2 3 3 (fun _ => [[⟨1, 0, 0, 1, 1⟩]])
          ⟨0, [⟨9, 9, 9, 9⟩]⟩ [[1]]).1.last_known_faces
        = [⟨9, 9, 9, 9⟩]) :=
  ⟨(c1_cache_transition (fun g => g) 0 2 3 3 (fun _ => [[⟨1, 0, 0, 1, 1⟩]])
      ⟨1, [⟨9, 9, 9, 9⟩]⟩ [[1]] (by decide)).1 (by decide),
   (c1_cache_transition (fun g => g) 0 2 3 3 (fun _ => [[⟨1, 0, 0, 1, 1⟩]])
      ⟨0, [⟨9, 9, 9, 9⟩]⟩ [[1]] (by decide)).2 (by decide)⟩

/-- Claim C9: the cache is never clamped: after a step it holds either
the raw integer boxes of the fresh detections (`selectFaces` applies no
clamp) or the previous cache, and the whole post-step state is
independent of the frame dimensions used for clamping — only the
per-frame local copies fed to the blur are clamped. -/
theorem c9_cache_never_clamped (blur : Grid → Grid) (t : ℚ)
    (detection_interval : Nat) (width height width2 height2 : Int)
    (detect : Grid → List (List Detection)) (s : VideoState) (frame : Grid) :
    ((videoStep blur t detection_interval width height detect s frame).1.last_known_faces
      = if (s.frame_number + 1) % detection_interval = 0
        then selectFaces t (detect frame) else s.last_known_faces) ∧
    (videoStep blur t detection_interval width height detect s frame).1
      = (videoStep blur t detection_interval width2 height2 detect s frame).1 := by
  constructor
  · by_cases h : (s.frame_number + 1) % detection_interval = 0 <;> simp [videoStep, h]
  · rfl

/-- Claim C4: if the detection model fails to load, both pipelines
report the error and return at once: the whole trace is the (possible)
output-directory creation followed by the load-error report, so no
input file is read and no output file is produced, whatever the input
lists are. -/
theorem c4_model_load_aborts (env : Env) (cfg : Config) (output_dir : String)
    (h : env.model_loads = false) (image_paths video_paths : List String) :
    blur_faces_in_images env cfg image_paths output_dir
      = (if env.output_dir_exists then [] else [Event.mkdirOut output_dir])
          ++ [Event.loadError] ∧
    blur_faces_in_videos env cfg video_paths output_dir
      = (if env.output_dir_exists then [] else [Event.mkdirOut output_dir])
          ++ [Event.loadError] ∧
    (∀ e ∈ blur_faces_in_images env cfg image_paths output_dir,
      e.isFileAccess = false) ∧
    (∀ e ∈ blur_faces_in_videos env cfg video_paths output_dir,
      e.isFileAccess = false) := by
  have hm : ¬ (env.model_loads = true) := by rw [h]; simp
  have h1 : blur_faces_in_images env cfg image_paths output_dir
      = (if env.output_dir_exists then [] else [Event.mkdirOut output_dir])
          ++ [Event.loadError] := by
    rw [blur_faces_in_images, if_neg hm]
  have h2 : blur_faces_in_videos env cfg video_paths output_dir
      = (if env.output_dir_exists then [] else [Event.mkdirOut output_dir])
          ++ [Event.loadError] := by
    rw [blur_faces_in_videos, if_neg hm]
  have hnofile : ∀ e ∈ (if env.output_dir_exists then ([] : List Event)
      else [Event.mkdirOut output_dir]) ++ [Event.loadError], e.isFileAccess = false := by
    intro e he
    rcases List.mem_append.mp he with h3 | h3
    · by_cases hd : env.output_dir_exists = true
      · rw [if_pos hd] at h3
        exact absurd h3 (List.not_mem_nil e)
      · rw [if_neg hd] at h3
        rw [List.mem_singleton.mp h3]
        rfl
    · rw [List.mem_singleton.mp h3]
      rfl
  refine ⟨h1, h2, ?_, ?_⟩
  · rw [h1]; exact hnofile
  · rw [h2]; exact hnofile

/-- Witness for C4: a failing-model environment with one image and one
video path: each pipeline's whole trace is the load-error report. -/
theorem c4_witness :
    blur_faces_in_images ⟨true, false, fun _ => true, fun _ => none, fun _ => none,
        fun _ => []⟩ ⟨fun g => g, 0, 1⟩ ["a.jpg"] "out" = [Event.loadError] ∧
    blur_faces_in_videos ⟨true, false, fun _ => true, fun _ => none, fun _ => none,
        fun _ => []⟩ ⟨fun g => g, 0, 1⟩ ["v.mp4"] "out" = [Event.loadError] := by
  have h := c4_model_load_aborts
    ⟨true, false, fun _ => true, fun _ => none, fun _ => none, fun _ => []⟩
    ⟨fun g => g, 0, 1⟩ "out" rfl ["a.jpg"] ["v.mp4"]
  exact ⟨by simpa using h.1, by simpa using h.2.1⟩

/-- Claim C5 fails as stated: the writer is opened with `int(fps)`, so
a source with the common fractional rate 29.97 is written at 29 frames
per second, not at the source's rate. -/
theorem c5_counterexample :
    processVideoPath ⟨true, true, fun _ => true, fun _ => none,
        fun _ => some ⟨(2997 : ℚ)/100, 640, 480, []⟩, fun _ => []⟩
        ⟨fun g => g, 0, 5⟩ "out" "v.mp4"
      = [Event.readInput "v.mp4", Event.writeVideo "out/blurred_v.mp4" 29 640 480 []] ∧
    ((29 : ℚ) ≠ (2997 : ℚ)/100) := by
  have hnum : ((2997 : ℚ)/100).num = 2997 := by norm_num
  have hden : ((2997 : ℚ)/100).den = 100 := by norm_num
  have hfps : intTrunc ((2997 : ℚ)/100) = 29 := by
    rw [intTrunc, hnum, hden]
    decide
  have hout : outputPath "out" "v.mp4" = "out/blurred_v.mp4" := by decide
  constructor
  · simp only [processVideoPath]
    rw [if_neg (by decide)]
    simp [hfps, hout, runFrames]
  · norm_num

/-- Claim C5 (amended): for every successfully opened video the output
stream keeps the source's dimensions and frame count and the frames are
written in their original order (prefix by prefix, so none are
reordered, dropped, or duplicated); the written frame rate is the
integer truncation of the source's rate, which equals it whenever the
source rate is an integer. -/
theorem c5_stream_props (env : Env) (cfg : Config) (output_dir p : String)
    (v : VideoFile) (hp : env.path_exists p = true) (hv : env.video_of p = some v) :
    processVideoPath env cfg output_dir p
      = [Event.readInput p,
         Event.writeVideo (outputPath output_dir p) (intTrunc v.fps) v.width v.height
           (runFrames (videoStep cfg.blur cfg.confidence_threshold
               cfg.detection_interval v.width v.height env.detect) ⟨0, []⟩ v.frames)] ∧
    (runFrames (videoStep cfg.blur cfg.confidence_threshold cfg.detection_interval
        v.width v.height env.detect) ⟨0, []⟩ v.frames).length = v.frames.length ∧
    (∀ n, (runFrames (videoStep cfg.blur cfg.confidence_threshold
          cfg.detection_interval v.width v.height env.detect) ⟨0, []⟩ v.frames).take n
        = runFrames (videoStep cfg.blur cfg.confidence_threshold
            cfg.detection_interval v.width v.height env.detect) ⟨0, []⟩
            (v.frames.take n)) ∧
    (v.fps.den = 1 → (intTrunc v.fps : ℚ) = v.fps) := by
  refine ⟨?_, runFrames_length _ _ _, fun n => runFrames_take _ _ _ n, ?_⟩
  · simp only [processVideoPath]
    rw [if_neg (by simp [hp]), hv]
  · intro hden
    rw [intTrunc, hden, Nat.cast_one, Int.tdiv_one]
    exact_mod_cast (Rat.den_eq_one_iff v.fps).mp hden

/-- Witness for the amended C5: a one-frame video at integer rate 2. -/
theorem c5_stream_props_witness :
    processVideoPath ⟨true, true, fun _ => true, fun _ => none,
        fun _ => some ⟨2, 640, 480, [[[1]]]⟩, fun _ => []⟩
        ⟨fun g => g, 0, 5⟩ "out" "v.mp4"
      = [Event.readInput "v.mp4",
         Event.writeVideo (outputPath "out" "v.mp4") (intTrunc 2) 640 480
           (runFrames (videoStep (fun g => g) 0 5 640 480 (fun _ => []))
             ⟨0, []⟩ [[[1]]])] ∧
    (intTrunc 2 : ℚ) = 2 := by
  have h := c5_stream_props
    ⟨true, true, fun _ => true, fun _ => none,
      fun _ => some ⟨2, 640, 480, [[[1]]]⟩, fun _ => []⟩
    ⟨fun g => g, 0, 5⟩ "out" "v.mp4" ⟨2, 640, 480, [[[1]]]⟩ rfl rfl
  exact ⟨by simpa using h.1, by simpa using h.2.2.2 rfl⟩

/-- Claim C10: the output path depends only on the output directory and
the input's basename, so two inputs sharing a basename map to the same
output path; processing both writes that path twice, the later write
overwriting the earlier, and the set of distinct written paths has just
one element for the two processed inputs. -/
theorem c10_basename_collision (env : Env) (cfg : Config) (output_dir p q : String)
    (gp gq : Grid) (hb : basename p = basename q) (hm : env.model_loads = true)
    (hp : env.path_exists p = true) (hq : env.path_exists q = true)
    (hgp : env.image_of p = some gp) (hgq : env.image_of q = some gq) :
    outputPath output_dir p = outputPath output_dir q ∧
    writtenPaths (blur_faces_in_images env cfg [p, q] output_dir)
      = [outputPath output_dir q, outputPath output_dir q] ∧
    (writtenPaths (blur_faces_in_images env cfg [p, q] output_dir)).dedup.length = 1 ∧
    finalContent (blur_faces_in_images env cfg [p, q] output_dir)
        (outputPath output_dir q)
      = some (imageProcessFrame cfg.blur cfg.confidence_threshold (gridWidth gq)
          (gridHeight gq) (env.detect gq) gq) := by
  have hout : outputPath output_dir p = outputPath output_dir q := by
    rw [outputPath, outputPath, hb]
  have himg : ∀ (r : String) (g : Grid), env.path_exists r = true →
      env.image_of r = some g →
      processImagePath env cfg output_dir r
        = [Event.readInput r,
           Event.writeOutput (outputPath output_dir r)
             (imageProcessFrame cfg.blur cfg.confidence_threshold (gridWidth g)
               (gridHeight g) (env.detect g) g)] := by
    intro r g hr hg
    simp only [processImagePath]
    rw [if_neg (by simp [hr]), hg]
  have htrace : blur_faces_in_images env cfg [p, q] output_dir
      = (if env.output_dir_exists then [] else [Event.mkdirOut output_dir]) ++
        ([Event.readInput p,
          Event.writeOutput (outputPath output_dir q)
            (imageProcessFrame cfg.blur cfg.confidence_threshold (gridWidth gp)
              (gridHeight gp) (env.detect gp) gp)] ++
         ([Event.readInput q,
           Event.writeOutput (outputPath output_dir q)
             (imageProcessFrame cfg.blur cfg.confidence_threshold (gridWidth gq)
               (gridHeight gq) (env.detect gq) gq)] ++ [])) := by
    rw [blur_faces_in_images, if_pos hm, List.map_cons, List.map_cons, List.map_nil,
      himg p gp hp hgp, himg q gq hq hgq, hout]
    rfl
  refine ⟨hout, ?_, ?_, ?_⟩
  · rw [htrace]
    by_cases hd : env.output_dir_exists = true
    · rw [if_pos hd]
      simp [writtenPaths]
    · rw [if_neg hd]
      simp [writtenPaths]
  · rw [htrace]
    by_cases hd : env.output_dir_exists = true
    · rw [if_pos hd]
      simp [writtenPaths]
    · rw [if_neg hd]
      simp [writtenPaths]
  · rw [htrace]
    by_cases hd : env.output_dir_exists = true
    · rw [if_pos hd]
      simp [finalContent]
    · rw [if_neg hd]
      simp [finalContent]

/-- Witness for C10: `a/x.jpg` and `b/x.jpg` share basename `x.jpg`;
both writes land on the same output path. -/
theorem c10_witness :
    outputPath "out" "a/x.jpg" = outputPath "out" "b/x.jpg" ∧
    writtenPaths (blur_faces_in_images
        ⟨true, true, fun _ => true, fun _ => some [[3]], fun _ => none, fun _ => []⟩
        ⟨fun g => g, 0, 1⟩ ["a/x.jpg", "b/x.jpg"] "out")
      = [outputPath "out" "b/x.jpg", outputPath "out" "b/x.jpg"] := by
  have h := c10_basename_collision
    ⟨true, true, fun _ => true, fun _ => some [[3]], fun _ => none, fun _ => []⟩
    ⟨fun g => g, 0, 1⟩ "out" "a/x.jpg" "b/x.jpg" [[3]] [[3]]
    (by decide) rfl rfl rfl rfl rfl
  exact ⟨h.1, h.2.1⟩

end BlurFaces
